import Mathlib

/-!
Shallow embedding of `src/checkers/event_file_checker.py`, the checker for
the syntax of the Phoenix event file format, together with theorems about
its behaviour.

JSON values are modelled by the inductive type `JValue`. Python's runtime
type distinctions matter to the checker (`isinstance` probes), so the model
keeps `bool`, `int` and `float` as separate constructors; note that in
Python `isinstance(True, int)` holds, which the numeric check below mirrors.
Checkers raise `PhoenixFormatError`; here they return
`Except PhoenixFormatError Unit`, error messages built exactly as the
`%`-format strings of the source build them.
-/

namespace Phoenix

/-- A JSON value as produced by Python's `json.load`: `None`, booleans,
integers, floats (modelled as rationals: the checker never computes with
them, it only probes their runtime type), strings, lists and
string-keyed dictionaries (kept as ordered association lists, matching
insertion-ordered Python dicts). -/
inductive JValue where
  | null : JValue
  | bool : Bool → JValue
  | int : Int → JValue
  | float : ℚ → JValue
  | str : String → JValue
  | arr : List JValue → JValue
  | obj : List (String × JValue) → JValue

/-- `type(j).__name__` for each modelled Python runtime type. -/
def JValue.typeName : JValue → String
  | .null => "NoneType"
  | .bool _ => "bool"
  | .int _ => "int"
  | .float _ => "float"
  | .str _ => "str"
  | .arr _ => "list"
  | .obj _ => "dict"

/-- The items of a list value; `[]` on non-lists (only used under a
prior `isinstance(_, list)` guard, mirroring the source). -/
def JValue.arrItems : JValue → List JValue
  | .arr xs => xs
  | _ => []

/-- The entries of a dict value; `[]` on non-dicts (only used under a
prior `isinstance(_, dict)` guard, mirroring the source). -/
def JValue.objEntries : JValue → List (String × JValue)
  | .obj kvs => kvs
  | _ => []

/-- Python dict lookup `j[key]` / membership `key in j` on the entry list:
the value at the first matching key. -/
def lookupJ (kvs : List (String × JValue)) (k : String) : Option JValue :=
  (kvs.find? (fun p => p.1 == k)).map (fun p => p.2)

mutual

/-- Python `str(j)` (which for containers prints element `repr`s), used by
the source only to format an invalid hit type into an error message. -/
def pyStr : JValue → String
  | .str s => s
  | v => pyRepr v

/-- Python `repr(j)` on the modelled values. -/
def pyRepr : JValue → String
  | .null => "None"
  | .bool true => "True"
  | .bool false => "False"
  | .int n => toString n
  | .float q => toString q
  | .str s => "'" ++ s ++ "'"
  | .arr xs => "[" ++ pyReprList xs ++ "]"
  | .obj kvs => "\x7b" ++ pyReprObj kvs ++ "\x7d"

/-- Comma-separated element reprs of a list. -/
def pyReprList : List JValue → String
  | [] => ""
  | [x] => pyRepr x
  | x :: rest => pyRepr x ++ ", " ++ pyReprList rest

/-- Comma-separated `key: value` reprs of a dict. -/
def pyReprObj : List (String × JValue) → String
  | [] => ""
  | [(k, v)] => "'" ++ k ++ "': " ++ pyRepr v
  | (k, v) :: rest => "'" ++ k ++ "': " ++ pyRepr v ++ ", " ++ pyReprObj rest

end

/-- `PhoenixFormatError`: the single exception kind of the checker, thrown
in case of bad format, carrying a message string. -/
structure PhoenixFormatError where
  message : String
deriving DecidableEq, Repr

/-- The outcome of one checker call: normal return or one raised
`PhoenixFormatError`. -/
abbrev Check := Except PhoenixFormatError Unit

/-- Python classes the source passes to `genericTypeCheck`. -/
inductive PyType where
  | list : PyType
  | dict : PyType
  | str : PyType
deriving DecidableEq, Repr

/-- `typ.__name__`. -/
def PyType.name : PyType → String
  | .list => "list"
  | .dict => "dict"
  | .str => "str"

/-- Python `isinstance(j, typ)` for the classes the source probes. -/
def isInstanceOf : JValue → PyType → Bool
  | .arr _, .list => true
  | .obj _, .dict => true
  | .str _, .str => true
  | _, _ => false

/-- `genericTypeCheck(j, objName, typ)`: checks that the object has the
given type. -/
def genericTypeCheck (j : JValue) (objName : String) (typ : PyType) : Check :=
  if isInstanceOf j typ then .ok ()
  else .error ⟨"Expected the " ++ objName ++ " to be of type \"" ++ typ.name
      ++ "\", found " ++ j.typeName⟩

/-- `noCheck(j, name)`: no checking anything. -/
def noCheck (_j : JValue) (_name : String) : Check := .ok ()

/-- Python `isinstance(j, float) or isinstance(j, int)`; booleans satisfy
`isinstance(_, int)` because `bool` subclasses `int`. -/
def isNumeric : JValue → Bool
  | .float _ => true
  | .int _ => true
  | .bool _ => true
  | _ => false

/-- `floatCheck(j, name)`: checks that the object is a float (or an int,
and hence also a bool). -/
def floatCheck (j : JValue) (name : String) : Check :=
  if isNumeric j then .ok ()
  else .error ⟨"Expected the " ++ name ++ " to be of type float or int, found "
      ++ j.typeName⟩

/-- `colorAttributeCheck(j, name)`: only checks that the value is a string. -/
def colorAttributeCheck (j : JValue) (name : String) : Check :=
  genericTypeCheck j name .str

/-- The per-item loop of `floatListCheck`: each item must be numeric,
items labelled `item 0`, `item 1`, ... -/
def floatItemsLoop (name : String) : List JValue → Nat → Check
  | [], _ => .ok ()
  | item :: rest, n =>
      (floatCheck item (name ++ ", item " ++ toString n)).bind fun _ =>
        floatItemsLoop name rest (n + 1)

/-- `floatListCheck(j, name, nitems=-1)`: the object must be a list, of
exactly `nitems` items when `nitems >= 0`, all of them floats. -/
def floatListCheck (j : JValue) (name : String) (nitems : Int := -1) : Check :=
  (genericTypeCheck j name .list).bind fun _ =>
    if nitems ≥ 0 ∧ (j.arrItems.length : Int) ≠ nitems then
      .error ⟨"Expected " ++ toString nitems ++ " entries in " ++ name
          ++ ", got " ++ toString j.arrItems.length⟩
    else
      floatItemsLoop name j.arrItems 0

/-- Python `j in ('Point', 'Box', 'Line')`: membership compares with
`==`, so any non-string value is not a member. -/
def isValidHitType : JValue → Bool
  | .str s => s == "Point" || s == "Box" || s == "Line"
  | _ => false

/-- `hitTypeCheck(j, name)`: the object must be a valid hit type, so one
of `Point`, `Line` or `Box`. -/
def hitTypeCheck (j : JValue) (name : String) : Check :=
  if isValidHitType j then .ok ()
  else .error ⟨"Invalid hit type \"" ++ pyStr j ++ "\" in " ++ name
      ++ ". Valid values are Point, Line and Box"⟩

/-- The per-triplet loop of `posAttributeCheck`: each item is a
3-float list, labelled `item 0`, `item 1`, ... -/
def posItemsLoop (name : String) : List JValue → Nat → Check
  | [], _ => .ok ()
  | pos :: rest, n =>
      (floatListCheck pos (name ++ ", item " ++ toString n) 3).bind fun _ =>
        posItemsLoop name rest (n + 1)

/-- `posAttributeCheck(positions, name)`: a valid `pos` attribute is a
list of float triplets. -/
def posAttributeCheck (positions : JValue) (name : String) : Check :=
  (genericTypeCheck positions name .list).bind fun _ =>
    posItemsLoop name positions.arrItems 0

/-- One schema-table row: a potential key associated to `(isOpt, checker)`
where `isOpt` says whether the entry is optional and `checker` checks the
syntax of the entry's value. The table keeps Python's dict insertion
order. -/
abbrev Schema := List (String × Bool × (JValue → String → Check))

/-- The per-entry loop of `genericCheck` over the schema rows, on the
entries `kvs` of object `j`: a missing mandatory key raises; a present
key's value is checked by the row's checker with the extended label. -/
def genericCheckLoop (kvs : List (String × JValue)) (objName : String) :
    Schema → Check
  | [] => .ok ()
  | (key, isOpt, checker) :: rest =>
      if !isOpt && (lookupJ kvs key).isNone then
        .error ⟨"Expected a '" ++ key ++ "' attribute in " ++ objName⟩
      else
        match lookupJ kvs key with
        | some v =>
            (checker v (objName ++ ", attribute '" ++ key ++ "'")).bind fun _ =>
              genericCheckLoop kvs objName rest
        | none => genericCheckLoop kvs objName rest

/-- `genericCheck(j, d, objName, objType)`: generic checker of the
structure of a json object `j` against the schema table `d`. `j` must be
a dict; every non-optional key of `d` must be present in `j`; every key
of `d` present in `j` has its value checked by the row's checker. -/
def genericCheck (j : JValue) (d : Schema) (objName objType : String) : Check :=
  match j with
  | .obj kvs => genericCheckLoop kvs objName d
  | _ => .error ⟨"Expected " ++ objType ++ " to be dictionaries. Not the case for "
      ++ objName⟩

/-- The schema table of one Track item. -/
def trackEntries : Schema :=
  [("pos", false, posAttributeCheck),
   ("color", true, colorAttributeCheck),
   ("dparams", true, fun j n => floatListCheck j n 5),
   ("d0", true, floatCheck),
   ("z0", true, floatCheck),
   ("phi", true, floatCheck),
   ("eta", true, floatCheck)]

/-- The per-track loop of `tracksCheck` (1-based track indices). -/
def tracksLoop (data_name : String) : List JValue → Nat → Check
  | [], _ => .ok ()
  | track :: rest, n =>
      (genericCheck track trackEntries
          (data_name ++ ", track " ++ toString n) "Track").bind fun _ =>
        tracksLoop data_name rest (n + 1)

/-- `tracksCheck(data_name, data)`: a valid Tracks entry is a list of
Track objects. -/
def tracksCheck (data_name : String) (data : JValue) : Check :=
  (genericTypeCheck data data_name .list).bind fun _ =>
    tracksLoop data_name data.arrItems 1

/-- The schema table of one Jet item. -/
def jetEntries : Schema :=
  [("eta", false, floatCheck),
   ("phi", false, floatCheck),
   ("theta", true, floatCheck),
   ("energy", true, floatCheck),
   ("et", true, floatCheck),
   ("coneR", true, floatCheck),
   ("color", true, colorAttributeCheck)]

/-- The per-jet loop of `jetsCheck` (1-based jet indices). -/
def jetsLoop (data_name : String) : List JValue → Nat → Check
  | [], _ => .ok ()
  | jet :: rest, n =>
      (genericCheck jet jetEntries
          (data_name ++ ", jet " ++ toString n) "Jet").bind fun _ =>
        jetsLoop data_name rest (n + 1)

/-- `jetsCheck(data_name, data)`: a valid Jets entry is a list of Jet
objects. -/
def jetsCheck (data_name : String) (data : JValue) : Check :=
  (genericTypeCheck data data_name .list).bind fun _ =>
    jetsLoop data_name data.arrItems 1

/-- The raw-triplet branch loop of `hitsCheck`: each position must be a
list (the type-error label reuses `data_name`, as in the source), of
exactly 3 entries, each a float, labelled coordinate x/y/z. -/
def hitsPosLoop (data_name : String) : List JValue → Nat → Check
  | [], _ => .ok ()
  | position :: rest, n =>
      (genericTypeCheck position data_name .list).bind fun _ =>
        match position.arrItems with
        | [x, y, z] =>
            (floatCheck x (data_name ++ ", position " ++ toString n
                ++ ", coordinate x")).bind fun _ =>
              (floatCheck y (data_name ++ ", position " ++ toString n
                  ++ ", coordinate y")).bind fun _ =>
                (floatCheck z (data_name ++ ", position " ++ toString n
                    ++ ", coordinate z")).bind fun _ =>
                  hitsPosLoop data_name rest (n + 1)
        | _ =>
            .error ⟨"Expected Hits to be triplets of values. Not the case for "
                ++ data_name ++ ", position " ++ toString n⟩

/-- The schema table of one typed Hit object. -/
def hitEntries : Schema :=
  [("type", true, hitTypeCheck),
   ("pos", false, fun j n => floatListCheck j n),
   ("color", true, colorAttributeCheck)]

/-- Python `3 if typ == 'Point' else 6`: the number of coordinates a hit
of type `typ` must carry (`==` against the string `'Point'`). -/
def hitExpNpos (typ : JValue) : Nat :=
  match typ with
  | .str s => if s = "Point" then 3 else 6
  | _ => 6

/-- The typed-Hit branch loop of `hitsCheck`: each hit is checked against
`hitEntries`, then the length of `pos` must match the hit type: 3 for
`Point` (the default when `type` is absent), 6 otherwise (`Line`, `Box`). -/
def hitsObjLoop (data_name : String) : List JValue → Nat → Check
  | [], _ => .ok ()
  | hit :: rest, n =>
      (genericCheck hit hitEntries
          (data_name ++ ", hit " ++ toString n) "Hit").bind fun _ =>
        let typ := match lookupJ hit.objEntries "type" with
          | some t => t
          | none => .str "Point"
        let npos := (match lookupJ hit.objEntries "pos" with
          | some p => p.arrItems
          | none => []).length
        let expNpos : Nat := hitExpNpos typ
        if npos ≠ expNpos then
          .error ⟨"Expected " ++ toString expNpos ++ " coordinates per Hit in "
              ++ data_name ++ ". Found " ++ toString npos ++ " in hit "
              ++ toString n⟩
        else
          hitsObjLoop data_name rest (n + 1)

/-- `hitsCheck(data_name, data)`: a valid Hits entry is a list, empty, or
of raw position triplets when its first element is a list, or of typed
Hit objects otherwise. -/
def hitsCheck (data_name : String) (data : JValue) : Check :=
  (genericTypeCheck data data_name .list).bind fun _ =>
    match data.arrItems with
    | [] => .ok ()
    | first :: rest =>
        if isInstanceOf first .list then
          hitsPosLoop data_name (first :: rest) 0
        else
          hitsObjLoop data_name (first :: rest) 0

/-- The schema table of one CaloCluster/CaloCell item. -/
def clusterEntries : Schema :=
  [("energy", false, floatCheck),
   ("phi", false, floatCheck),
   ("eta", false, floatCheck)]

/-- The per-entry loop of `clustersCheck` (0-based indices). -/
def clustersLoop (data_name : String) : List JValue → Nat → Check
  | [], _ => .ok ()
  | item :: rest, n =>
      (genericCheck item clusterEntries
          (data_name ++ ", entry " ++ toString n) "CaloCluster/CaloCell").bind fun _ =>
        clustersLoop data_name rest (n + 1)

/-- `clustersCheck(data_name, data)`: a valid CaloClusters/CaloCells
entry is a list of objects with energy/phi/eta. -/
def clustersCheck (data_name : String) (data : JValue) : Check :=
  (genericTypeCheck data data_name .list).bind fun _ =>
    clustersLoop data_name data.arrItems 0

/-- The schema table of the PlanarCaloCells top object. -/
def planarEntries : Schema :=
  [("plane", false, fun j n => floatListCheck j n 4),
   ("cells", false, fun j name => genericTypeCheck j (name ++ ", cells attribute") .list)]

/-- The schema table of one PlanarCaloCells cell. -/
def planarCellEntries : Schema :=
  [("cellSize", false, floatCheck),
   ("energy", false, floatCheck),
   ("pos", false, fun j n => floatListCheck j n 2),
   ("color", true, colorAttributeCheck)]

/-- The per-cell loop of `planarCaloCheck` (0-based indices). -/
def planarCellsLoop (data_name : String) : List JValue → Nat → Check
  | [], _ => .ok ()
  | cell :: rest, n =>
      (genericCheck cell planarCellEntries
          (data_name ++ ", cell " ++ toString n) "CaloCell").bind fun _ =>
        planarCellsLoop data_name rest (n + 1)

/-- `planarCaloCheck(data_name, data)`: a valid PlanarCaloCells entry is
an object with a 4-float `plane` and a `cells` list of cell objects. -/
def planarCaloCheck (data_name : String) (data : JValue) : Check :=
  (genericTypeCheck data data_name .dict).bind fun _ =>
    (genericCheck data planarEntries data_name "PlanarCaloCells").bind fun _ =>
      planarCellsLoop data_name
        ((match lookupJ data.objEntries "cells" with
          | some c => c
          | none => .null).arrItems) 0

/-- The schema table of one Vertex item. -/
def vertexEntries : Schema :=
  [("x", false, floatCheck),
   ("y", false, floatCheck),
   ("z", false, floatCheck),
   ("color", true, colorAttributeCheck)]

/-- The per-vertex loop of `verticesCheck` (0-based indices). -/
def verticesLoop (data_name : String) : List JValue → Nat → Check
  | [], _ => .ok ()
  | item :: rest, n =>
      (genericCheck item vertexEntries
          (data_name ++ ", vertex " ++ toString n) "Vertex").bind fun _ =>
        verticesLoop data_name rest (n + 1)

/-- `verticesCheck(data_name, data)`: a valid Vertices entry is a list of
Vertex objects. -/
def verticesCheck (data_name : String) (data : JValue) : Check :=
  (genericTypeCheck data data_name .list).bind fun _ =>
    verticesLoop data_name data.arrItems 0

/-- The schema table of one MissingEnergy item. -/
def missingEEntries : Schema :=
  [("etx", false, floatCheck),
   ("ety", false, floatCheck),
   ("color", true, colorAttributeCheck)]

/-- The per-object loop of `missingECheck` (0-based indices). -/
def missingELoop (data_name : String) : List JValue → Nat → Check
  | [], _ => .ok ()
  | item :: rest, n =>
      (genericCheck item missingEEntries
          (data_name ++ ", object " ++ toString n) "MissingEnergy").bind fun _ =>
        missingELoop data_name rest (n + 1)

/-- `missingECheck(data_name, data)`: a valid MissingEnergy entry is a
list of objects with etx/ety. -/
def missingECheck (data_name : String) (data : JValue) : Check :=
  (genericTypeCheck data data_name .list).bind fun _ =>
    missingELoop data_name data.arrItems 0

/-- `compoundCheck(data_name, data)`: no check for the moment (source
comment: "To be fixed"). -/
def compoundCheck (_data_name : String) (_data : JValue) : Check := .ok ()

/-- `KnownDataTypes`: table of known dataTypes and their checking
function, in source order. -/
def KnownDataTypes : List (String × (String → JValue → Check)) :=
  [("Tracks", tracksCheck),
   ("Jets", jetsCheck),
   ("Hits", hitsCheck),
   ("CaloClusters", clustersCheck),
   ("CaloCells", clustersCheck),
   ("PlanarCaloCells", planarCaloCheck),
   ("Vertices", verticesCheck),
   ("MissingEnergy", missingECheck),
   ("Muons", compoundCheck),
   ("Photons", compoundCheck),
   ("Electrons", compoundCheck)]

/-- The per-collection loop of `eventDataCheck`: each collection of the
selected data type is checked by the type's checker. -/
def collectionsLoop (checker : String → JValue → Check) (event_name : String) :
    List (String × JValue) → Check
  | [] => .ok ()
  | (collection_name, v) :: rest =>
      (checker ("event '" ++ event_name ++ "', collection '"
          ++ collection_name ++ "'") v).bind fun _ =>
        collectionsLoop checker event_name rest

/-- `eventDataCheck(event_name, data_type, data)`: checks the structure
of a Phoenix event's data. `data_type` must be one of the authorized
object types, and each collection inside `data` (which the caller
guarantees to be a dict, passed here as its entry list) is checked by
that type's checker. -/
def eventDataCheck (event_name data_type : String)
    (data : List (String × JValue)) : Check :=
  match (KnownDataTypes.find? (fun p => p.1 == data_type)).map (fun p => p.2) with
  | none => .error ⟨"Unknown data type found : '" ++ data_type ++ "'"⟩
  | some checker => collectionsLoop checker event_name data

/-- The event schema: an event number and a run number, both mandatory,
both with `noCheck`. The source writes each row's `(isOpt, checker)` pair
as the set literal `{False, noCheck}`; CPython iterates that two-element
set with `False` first (`hash(False) = 0` places it in slot 0), so the
unpacking in `genericCheck` reads it as the pair `(False, noCheck)`. -/
def eventEntries : Schema :=
  [("event number", false, noCheck),
   ("run number", false, noCheck)]

/-- The per-key loop of `eventCheck` over the event's entries: entries
holding a dict go to `eventDataCheck` with the key as the data type;
other entries are ignored. -/
def eventDataLoop (event_name : String) : List (String × JValue) → Check
  | [] => .ok ()
  | (dataKey, v) :: rest =>
      match v with
      | .obj kvs =>
          (eventDataCheck event_name dataKey kvs).bind fun _ =>
            eventDataLoop event_name rest
      | _ => eventDataLoop event_name rest

/-- `eventCheck(event_name, event)`: checks the structure of a Phoenix
event object: an object with an event number and a run number, whose
dict-valued entries are event data. -/
def eventCheck (event_name : String) (event : JValue) : Check :=
  (genericCheck event eventEntries ("top level event " ++ event_name)
      "Event").bind fun _ =>
    eventDataLoop event_name event.objEntries

/-- The per-event loop of `check`. -/
def eventsLoop : List (String × JValue) → Check
  | [] => .ok ()
  | (eventKey, v) :: rest =>
      (eventCheck eventKey v).bind fun _ => eventsLoop rest

/-- `check(topJson)`: checks whether the given json data respects the
phoenix format: a top level phoenix json is a dictionary of events. -/
def check (topJson : JValue) : Check :=
  match topJson with
  | .obj kvs => eventsLoop kvs
  | _ => .error ⟨"Expected a dictionary at top level"⟩

/-! ### Derived notions used to state the theorems -/

/-- Sequencing of a list of check outcomes, failing at the first error:
the shape every per-item loop of the checker reduces to. -/
def seqChecks : List Check → Check
  | [] => .ok ()
  | c :: rest => c.bind fun _ => seqChecks rest

/-- A raw hit: a list of exactly 3 numeric values. -/
def RawTriplet (x : JValue) : Prop :=
  ∃ a b c, x = .arr [a, b, c] ∧
    isNumeric a = true ∧ isNumeric b = true ∧ isNumeric c = true

/-- The `pos` length `hitsCheck` demands, from the (optional) `type`
field: 3 when it is absent (defaulting to `Point`), else `hitExpNpos`. -/
def hitExpectedPosLen : Option JValue → Nat
  | none => 3
  | some t => hitExpNpos t

/-- A typed Hit object as `hitsCheck` accepts it: a dict whose `type`, if
present, is one of `Point`/`Box`/`Line`, whose `color`, if present, is a
string, and whose mandatory `pos` is a list of numeric values of exactly
the length the hit type demands. -/
def ValidHitObj (x : JValue) : Prop :=
  ∃ kvs, x = .obj kvs ∧
    (∀ t, lookupJ kvs "type" = some t → isValidHitType t = true) ∧
    (∀ c, lookupJ kvs "color" = some c → isInstanceOf c .str = true) ∧
    (∃ ps, lookupJ kvs "pos" = some (.arr ps) ∧
      (∀ p ∈ ps, isNumeric p = true) ∧
      ps.length = hitExpectedPosLen (lookupJ kvs "type"))

/-- A valid Tracks `pos` attribute: a list of numeric triplets. -/
def IsValidPos (v : JValue) : Prop :=
  ∃ ps, v = .arr ps ∧ ∀ p ∈ ps, RawTriplet p

/-! ### Helper lemmas -/

lemma check_bind_ok_iff (c : Check) (f : Unit → Check) :
    c.bind f = .ok () ↔ c = .ok () ∧ f () = .ok () := by
  cases c with
  | error e => simp [Except.bind]
  | ok u => cases u; simp [Except.bind]

lemma check_bind_error (e : PhoenixFormatError) (f : Unit → Check) :
    (Except.error e : Check).bind f = .error e := rfl

lemma check_ok_bind (f : Unit → Check) :
    (Except.ok () : Check).bind f = f () := rfl

lemma check_bind_assoc (c : Check) (f g : Unit → Check) :
    (c.bind f).bind g = c.bind fun u => (f u).bind g := by
  cases c <;> rfl

lemma genericTypeCheck_ok_iff (j : JValue) (nm : String) (typ : PyType) :
    genericTypeCheck j nm typ = .ok () ↔ isInstanceOf j typ = true := by
  unfold genericTypeCheck
  by_cases h : isInstanceOf j typ <;> simp [h]

lemma floatCheck_ok_iff (j : JValue) (nm : String) :
    floatCheck j nm = .ok () ↔ isNumeric j = true := by
  unfold floatCheck
  by_cases h : isNumeric j <;> simp [h]

lemma hitTypeCheck_ok_iff (j : JValue) (nm : String) :
    hitTypeCheck j nm = .ok () ↔ isValidHitType j = true := by
  unfold hitTypeCheck
  by_cases h : isValidHitType j <;> simp [h]

lemma isInstanceOf_str_iff (j : JValue) :
    isInstanceOf j .str = true ↔ ∃ s, j = .str s := by
  cases j <;> simp [isInstanceOf]

lemma isInstanceOf_list_iff (j : JValue) :
    isInstanceOf j .list = true ↔ ∃ xs, j = .arr xs := by
  cases j <;> simp [isInstanceOf]

lemma floatItemsLoop_ok_iff (nm : String) :
    ∀ (l : List JValue) (n : Nat),
      floatItemsLoop nm l n = .ok () ↔ ∀ x ∈ l, isNumeric x = true := by
  intro l
  induction l with
  | nil => intro n; simp [floatItemsLoop]
  | cons x rest ih =>
      intro n
      simp only [floatItemsLoop, check_bind_ok_iff, floatCheck_ok_iff, ih,
        List.mem_cons]
      constructor
      · rintro ⟨hx, hrest⟩ y (rfl | hy)
        · exact hx
        · exact hrest y hy
      · intro h
        exact ⟨h x (Or.inl rfl), fun y hy => h y (Or.inr hy)⟩

lemma floatListCheck_any_ok_iff (j : JValue) (nm : String) :
    floatListCheck j nm = .ok () ↔
      ∃ xs, j = .arr xs ∧ ∀ x ∈ xs, isNumeric x = true := by
  cases j with
  | arr xs =>
      simp [floatListCheck, check_bind_ok_iff, genericTypeCheck_ok_iff,
        isInstanceOf, JValue.arrItems, floatItemsLoop_ok_iff]
  | null => simp [floatListCheck, genericTypeCheck, isInstanceOf, Except.bind]
  | bool b => simp [floatListCheck, genericTypeCheck, isInstanceOf, Except.bind]
  | int n => simp [floatListCheck, genericTypeCheck, isInstanceOf, Except.bind]
  | float q => simp [floatListCheck, genericTypeCheck, isInstanceOf, Except.bind]
  | str s => simp [floatListCheck, genericTypeCheck, isInstanceOf, Except.bind]
  | obj kvs => simp [floatListCheck, genericTypeCheck, isInstanceOf, Except.bind]

lemma hitsPosLoop_cons (nm : String) (position : JValue) (rest : List JValue)
    (n : Nat) :
    hitsPosLoop nm (position :: rest) n = .ok () ↔
      RawTriplet position ∧ hitsPosLoop nm rest (n + 1) = .ok () := by
  cases position with
  | arr xs =>
      rcases xs with _ | ⟨x, _ | ⟨y, _ | ⟨z, _ | ⟨w, tail⟩⟩⟩⟩
      · simp [hitsPosLoop, genericTypeCheck, isInstanceOf, JValue.arrItems,
          Except.bind, RawTriplet]
      · simp [hitsPosLoop, genericTypeCheck, isInstanceOf, JValue.arrItems,
          Except.bind, RawTriplet]
      · simp [hitsPosLoop, genericTypeCheck, isInstanceOf, JValue.arrItems,
          Except.bind, RawTriplet]
      · have hg : genericTypeCheck (JValue.arr [x, y, z]) nm .list = .ok () := rfl
        simp only [hitsPosLoop, hg, JValue.arrItems, check_ok_bind,
          check_bind_ok_iff, floatCheck_ok_iff, RawTriplet]
        constructor
        · rintro ⟨hx, hy, hz, hrest⟩
          exact ⟨⟨x, y, z, rfl, hx, hy, hz⟩, hrest⟩
        · rintro ⟨⟨a, b, c, heq, ha, hb, hc⟩, hrest⟩
          injection heq with h1
          injection h1 with hxa h2
          injection h2 with hyb h3
          injection h3 with hzc h4
          subst hxa; subst hyb; subst hzc
          exact ⟨ha, hb, hc, hrest⟩
      · simp [hitsPosLoop, genericTypeCheck, isInstanceOf, JValue.arrItems,
          Except.bind, RawTriplet]
  | null =>
      simp [hitsPosLoop, genericTypeCheck, isInstanceOf, Except.bind, RawTriplet]
  | bool b =>
      simp [hitsPosLoop, genericTypeCheck, isInstanceOf, Except.bind, RawTriplet]
  | int m =>
      simp [hitsPosLoop, genericTypeCheck, isInstanceOf, Except.bind, RawTriplet]
  | float q =>
      simp [hitsPosLoop, genericTypeCheck, isInstanceOf, Except.bind, RawTriplet]
  | str s =>
      simp [hitsPosLoop, genericTypeCheck, isInstanceOf, Except.bind, RawTriplet]
  | obj kvs =>
      simp [hitsPosLoop, genericTypeCheck, isInstanceOf, Except.bind, RawTriplet]

lemma hitsPosLoop_ok_iff (nm : String) :
    ∀ (l : List JValue) (n : Nat),
      hitsPosLoop nm l n = .ok () ↔ ∀ x ∈ l, RawTriplet x := by
  intro l
  induction l with
  | nil => intro n; simp [hitsPosLoop]
  | cons position rest ih =>
      intro n
      rw [hitsPosLoop_cons, ih]
      simp only [List.mem_cons]
      constructor
      · rintro ⟨hp, hrest⟩ y (rfl | hy)
        · exact hp
        · exact hrest y hy
      · intro h
        exact ⟨h position (Or.inl rfl), fun y hy => h y (Or.inr hy)⟩

lemma genericCheckLoop_cons_opt (kvs : List (String × JValue)) (nm key : String)
    (checker : JValue → String → Check) (rest : Schema) :
    genericCheckLoop kvs nm ((key, true, checker) :: rest) =
      match lookupJ kvs key with
      | some v => (checker v (nm ++ ", attribute '" ++ key ++ "'")).bind fun _ =>
          genericCheckLoop kvs nm rest
      | none => genericCheckLoop kvs nm rest := by
  simp [genericCheckLoop]

lemma genericCheckLoop_cons_mand (kvs : List (String × JValue)) (nm key : String)
    (checker : JValue → String → Check) (rest : Schema) :
    genericCheckLoop kvs nm ((key, false, checker) :: rest) =
      match lookupJ kvs key with
      | some v => (checker v (nm ++ ", attribute '" ++ key ++ "'")).bind fun _ =>
          genericCheckLoop kvs nm rest
      | none => .error ⟨"Expected a '" ++ key ++ "' attribute in " ++ nm⟩ := by
  cases h : lookupJ kvs key <;> simp [genericCheckLoop, h]

lemma genericCheckLoop_hitEntries_ok_iff (nm : String)
    (kvs : List (String × JValue)) :
    genericCheckLoop kvs nm hitEntries = .ok () ↔
      (∀ t, lookupJ kvs "type" = some t → isValidHitType t = true) ∧
      (∃ ps, lookupJ kvs "pos" = some (.arr ps) ∧ ∀ p ∈ ps, isNumeric p = true) ∧
      (∀ c, lookupJ kvs "color" = some c → isInstanceOf c .str = true) := by
  cases htype : lookupJ kvs "type" <;> cases hpos : lookupJ kvs "pos" <;>
    cases hcolor : lookupJ kvs "color" <;>
      simp [hitEntries, genericCheckLoop_cons_opt, genericCheckLoop_cons_mand,
        htype, hpos, hcolor, genericCheckLoop, check_bind_ok_iff,
        hitTypeCheck_ok_iff, floatListCheck_any_ok_iff, colorAttributeCheck,
        genericTypeCheck_ok_iff]

lemma hitsObjLoop_cons (nm : String) (hit : JValue) (rest : List JValue)
    (n : Nat) :
    hitsObjLoop nm (hit :: rest) n = .ok () ↔
      ValidHitObj hit ∧ hitsObjLoop nm rest (n + 1) = .ok () := by
  have h3 : hitExpNpos (.str "Point") = 3 := rfl
  cases hit with
  | obj kvs =>
      cases htype : lookupJ kvs "type" with
      | none =>
          cases hpos : lookupJ kvs "pos" with
          | none =>
              simp [hitsObjLoop, genericCheck, check_bind_ok_iff,
                genericCheckLoop_hitEntries_ok_iff, htype, hpos, ValidHitObj,
                JValue.objEntries, hitExpectedPosLen, h3]
          | some v =>
              cases v with
              | arr ps =>
                  by_cases hlen : ps.length = 3 <;>
                    (simp [hitsObjLoop, genericCheck, check_bind_ok_iff,
                      genericCheckLoop_hitEntries_ok_iff, htype, hpos, ValidHitObj,
                      JValue.objEntries, hitExpectedPosLen, h3, JValue.arrItems,
                      hlen]
                     try tauto)
              | null =>
                  simp [hitsObjLoop, genericCheck, check_bind_ok_iff,
                    genericCheckLoop_hitEntries_ok_iff, htype, hpos, ValidHitObj,
                    JValue.objEntries, hitExpectedPosLen, h3, JValue.arrItems]
              | bool b =>
                  simp [hitsObjLoop, genericCheck, check_bind_ok_iff,
                    genericCheckLoop_hitEntries_ok_iff, htype, hpos, ValidHitObj,
                    JValue.objEntries, hitExpectedPosLen, h3, JValue.arrItems]
              | int m =>
                  simp [hitsObjLoop, genericCheck, check_bind_ok_iff,
                    genericCheckLoop_hitEntries_ok_iff, htype, hpos, ValidHitObj,
                    JValue.objEntries, hitExpectedPosLen, h3, JValue.arrItems]
              | float q =>
                  simp [hitsObjLoop, genericCheck, check_bind_ok_iff,
                    genericCheckLoop_hitEntries_ok_iff, htype, hpos, ValidHitObj,
                    JValue.objEntries, hitExpectedPosLen, h3, JValue.arrItems]
              | str s =>
                  simp [hitsObjLoop, genericCheck, check_bind_ok_iff,
                    genericCheckLoop_hitEntries_ok_iff, htype, hpos, ValidHitObj,
                    JValue.objEntries, hitExpectedPosLen, h3, JValue.arrItems]
              | obj kvs2 =>
                  simp [hitsObjLoop, genericCheck, check_bind_ok_iff,
                    genericCheckLoop_hitEntries_ok_iff, htype, hpos, ValidHitObj,
                    JValue.objEntries, hitExpectedPosLen, h3, JValue.arrItems]
      | some t =>
          cases hpos : lookupJ kvs "pos" with
          | none =>
              simp [hitsObjLoop, genericCheck, check_bind_ok_iff,
                genericCheckLoop_hitEntries_ok_iff, htype, hpos, ValidHitObj,
                JValue.objEntries, hitExpectedPosLen]
          | some v =>
              cases v with
              | arr ps =>
                  by_cases hlen : ps.length = hitExpNpos t <;>
                    (simp [hitsObjLoop, genericCheck, check_bind_ok_iff,
                      genericCheckLoop_hitEntries_ok_iff, htype, hpos, ValidHitObj,
                      JValue.objEntries, hitExpectedPosLen, JValue.arrItems,
                      hlen]
                     try tauto)
              | null =>
                  simp [hitsObjLoop, genericCheck, check_bind_ok_iff,
                    genericCheckLoop_hitEntries_ok_iff, htype, hpos, ValidHitObj,
                    JValue.objEntries, hitExpectedPosLen, JValue.arrItems]
              | bool b =>
                  simp [hitsObjLoop, genericCheck, check_bind_ok_iff,
                    genericCheckLoop_hitEntries_ok_iff, htype, hpos, ValidHitObj,
                    JValue.objEntries, hitExpectedPosLen, JValue.arrItems]
              | int m =>
                  simp [hitsObjLoop, genericCheck, check_bind_ok_iff,
                    genericCheckLoop_hitEntries_ok_iff, htype, hpos, ValidHitObj,
                    JValue.objEntries, hitExpectedPosLen, JValue.arrItems]
              | float q =>
                  simp [hitsObjLoop, genericCheck, check_bind_ok_iff,
                    genericCheckLoop_hitEntries_ok_iff, htype, hpos, ValidHitObj,
                    JValue.objEntries, hitExpectedPosLen, JValue.arrItems]
              | str s =>
                  simp [hitsObjLoop, genericCheck, check_bind_ok_iff,
                    genericCheckLoop_hitEntries_ok_iff, htype, hpos, ValidHitObj,
                    JValue.objEntries, hitExpectedPosLen, JValue.arrItems]
              | obj kvs2 =>
                  simp [hitsObjLoop, genericCheck, check_bind_ok_iff,
                    genericCheckLoop_hitEntries_ok_iff, htype, hpos, ValidHitObj,
                    JValue.objEntries, hitExpectedPosLen, JValue.arrItems]
  | null =>
      simp [hitsObjLoop, genericCheck, check_bind_error, ValidHitObj]
  | bool b =>
      simp [hitsObjLoop, genericCheck, check_bind_error, ValidHitObj]
  | int m =>
      simp [hitsObjLoop, genericCheck, check_bind_error, ValidHitObj]
  | float q =>
      simp [hitsObjLoop, genericCheck, check_bind_error, ValidHitObj]
  | str s =>
      simp [hitsObjLoop, genericCheck, check_bind_error, ValidHitObj]
  | arr xs =>
      simp [hitsObjLoop, genericCheck, check_bind_error, ValidHitObj]

lemma hitsObjLoop_ok_iff (nm : String) :
    ∀ (l : List JValue) (n : Nat),
      hitsObjLoop nm l n = .ok () ↔ ∀ x ∈ l, ValidHitObj x := by
  intro l
  induction l with
  | nil => intro n; simp [hitsObjLoop]
  | cons hit rest ih =>
      intro n
      rw [hitsObjLoop_cons, ih]
      simp only [List.mem_cons]
      constructor
      · rintro ⟨hh, hrest⟩ y (rfl | hy)
        · exact hh
        · exact hrest y hy
      · intro h
        exact ⟨h hit (Or.inl rfl), fun y hy => h y (Or.inr hy)⟩

lemma hitsCheck_nonempty_arr (nm : String) (first : JValue) (rest : List JValue) :
    hitsCheck nm (.arr (first :: rest)) =
      if isInstanceOf first .list then hitsPosLoop nm (first :: rest) 0
      else hitsObjLoop nm (first :: rest) 0 := rfl

lemma genericCheckLoop_congr :
    ∀ (d : Schema) (kvs kvs' : List (String × JValue)) (nm : String),
      (∀ key ∈ d.map (fun r => r.1), lookupJ kvs key = lookupJ kvs' key) →
      genericCheckLoop kvs nm d = genericCheckLoop kvs' nm d := by
  intro d
  induction d with
  | nil => intro kvs kvs' nm _; rfl
  | cons row rest ih =>
      intro kvs kvs' nm h
      obtain ⟨key, isOpt, checker⟩ := row
      have hk : lookupJ kvs key = lookupJ kvs' key := h key (by simp)
      have hrest : ∀ k ∈ rest.map (fun r => r.1),
          lookupJ kvs k = lookupJ kvs' k :=
        fun k hkm => h k (by simp [hkm])
      simp only [genericCheckLoop, hk, ih kvs kvs' nm hrest]

lemma lookupJ_cons_ne (k key : String) (v : JValue)
    (kvs : List (String × JValue)) (h : k ≠ key) :
    lookupJ ((k, v) :: kvs) key = lookupJ kvs key := by
  have hbeq : (k == key) = false := beq_eq_false_iff_ne.mpr h
  simp [lookupJ, List.find?, hbeq]

lemma lookupJ_append_left :
    ∀ (kvs l2 : List (String × JValue)) (key : String),
      (lookupJ kvs key).isSome = true →
      lookupJ (kvs ++ l2) key = lookupJ kvs key := by
  intro kvs
  induction kvs with
  | nil => intro l2 key h; simp [lookupJ] at h
  | cons p rest ih =>
      intro l2 key h
      cases hpk : (p.1 == key) with
      | true => simp [lookupJ, List.find?, hpk]
      | false =>
          simp only [lookupJ, List.cons_append, List.find?, hpk] at h ⊢
          exact ih l2 key h

lemma eventEntries_ok_isSome (kvs : List (String × JValue)) (nm : String) :
    genericCheckLoop kvs nm eventEntries = .ok () →
      (lookupJ kvs "event number").isSome = true ∧
      (lookupJ kvs "run number").isSome = true := by
  cases h1 : lookupJ kvs "event number" <;>
    cases h2 : lookupJ kvs "run number" <;>
      simp [eventEntries, genericCheckLoop_cons_mand, h1, h2, noCheck,
        genericCheckLoop, check_ok_bind]

lemma eventDataLoop_eq_seq (nm : String) :
    ∀ kvs : List (String × JValue),
      eventDataLoop nm kvs =
        seqChecks (((kvs.filter fun p => isInstanceOf p.2 .dict)).map fun p =>
          eventDataCheck nm p.1 p.2.objEntries) := by
  intro kvs
  induction kvs with
  | nil => rfl
  | cons p rest ih =>
      obtain ⟨k, v⟩ := p
      cases v <;>
        simp [eventDataLoop, seqChecks, isInstanceOf, List.filter, ih,
          JValue.objEntries]

lemma eventDataLoop_append (nm : String) :
    ∀ l1 l2 : List (String × JValue),
      eventDataLoop nm (l1 ++ l2) =
        (eventDataLoop nm l1).bind fun _ => eventDataLoop nm l2 := by
  intro l1
  induction l1 with
  | nil => intro l2; rfl
  | cons p rest ih =>
      intro l2
      obtain ⟨k, v⟩ := p
      cases v <;> simp [eventDataLoop, check_bind_assoc, ih]

lemma eventDataLoop_single_nondict (nm k : String) (v : JValue)
    (hv : isInstanceOf v .dict = false) :
    eventDataLoop nm [(k, v)] = .ok () := by
  cases v <;> simp_all [eventDataLoop, isInstanceOf]

lemma eventsLoop_eq_seq :
    ∀ kvs : List (String × JValue),
      eventsLoop kvs = seqChecks (kvs.map fun p => eventCheck p.1 p.2) := by
  intro kvs
  induction kvs with
  | nil => rfl
  | cons p rest ih => simp [eventsLoop, seqChecks, ih]

lemma seqChecks_first_error :
    ∀ (l1 : List Check) (e : PhoenixFormatError) (l2 : List Check),
      (∀ c ∈ l1, c = .ok ()) →
      seqChecks (l1 ++ .error e :: l2) = .error e := by
  intro l1
  induction l1 with
  | nil => intro e l2 _; rfl
  | cons c rest ih =>
      intro e l2 h
      have hc : c = .ok () := h c (by simp)
      subst hc
      simpa [seqChecks, check_ok_bind] using
        ih e l2 (fun c hc => h c (by simp [hc]))

lemma collectionsLoop_eq_seq (ch : String → JValue → Check) (nm : String) :
    ∀ data : List (String × JValue),
      collectionsLoop ch nm data =
        seqChecks (data.map fun p =>
          ch ("event '" ++ nm ++ "', collection '" ++ p.1 ++ "'") p.2) := by
  intro data
  induction data with
  | nil => rfl
  | cons p rest ih => simp [collectionsLoop, seqChecks, ih]

lemma floatListCheck_3_ok_iff (j : JValue) (nm : String) :
    floatListCheck j nm 3 = .ok () ↔ RawTriplet j := by
  cases j with
  | arr xs =>
      rcases xs with _ | ⟨x, _ | ⟨y, _ | ⟨z, _ | ⟨w, tail⟩⟩⟩⟩
      · simp [floatListCheck, genericTypeCheck, isInstanceOf, JValue.arrItems,
          RawTriplet, check_ok_bind]
      · simp [floatListCheck, genericTypeCheck, isInstanceOf, JValue.arrItems,
          RawTriplet, check_ok_bind]
      · simp [floatListCheck, genericTypeCheck, isInstanceOf, JValue.arrItems,
          RawTriplet, check_ok_bind]
      · have hg : genericTypeCheck (JValue.arr [x, y, z]) nm .list = .ok () := rfl
        simp only [floatListCheck, hg, check_ok_bind, JValue.arrItems,
          List.length_cons, List.length_nil]
        norm_num
        simp only [floatItemsLoop, check_bind_ok_iff, floatCheck_ok_iff,
          floatItemsLoop, RawTriplet]
        constructor
        · rintro ⟨hx, hy, hz, -⟩
          exact ⟨x, y, z, rfl, hx, hy, hz⟩
        · rintro ⟨a, b, c, heq, ha, hb, hc⟩
          injection heq with h1
          injection h1 with hxa h2
          injection h2 with hyb h3
          injection h3 with hzc h4
          subst hxa; subst hyb; subst hzc
          exact ⟨ha, hb, hc, trivial⟩
      · have hcond : ¬((tail.length : Int) + 1 + 1 + 1 + 1 = 3) := by omega
        simp [floatListCheck, genericTypeCheck, isInstanceOf, JValue.arrItems,
          RawTriplet, check_ok_bind, hcond]
  | null => simp [floatListCheck, genericTypeCheck, isInstanceOf, Except.bind,
      RawTriplet]
  | bool b => simp [floatListCheck, genericTypeCheck, isInstanceOf, Except.bind,
      RawTriplet]
  | int n => simp [floatListCheck, genericTypeCheck, isInstanceOf, Except.bind,
      RawTriplet]
  | float q => simp [floatListCheck, genericTypeCheck, isInstanceOf, Except.bind,
      RawTriplet]
  | str s => simp [floatListCheck, genericTypeCheck, isInstanceOf, Except.bind,
      RawTriplet]
  | obj kvs => simp [floatListCheck, genericTypeCheck, isInstanceOf, Except.bind,
      RawTriplet]

lemma posItemsLoop_ok_iff (nm : String) :
    ∀ (l : List JValue) (n : Nat),
      posItemsLoop nm l n = .ok () ↔ ∀ x ∈ l, RawTriplet x := by
  intro l
  induction l with
  | nil => intro n; simp [posItemsLoop]
  | cons pos rest ih =>
      intro n
      simp only [posItemsLoop, check_bind_ok_iff, floatListCheck_3_ok_iff, ih,
        List.mem_cons]
      constructor
      · rintro ⟨hp, hrest⟩ y (rfl | hy)
        · exact hp
        · exact hrest y hy
      · intro h
        exact ⟨h pos (Or.inl rfl), fun y hy => h y (Or.inr hy)⟩

lemma posAttributeCheck_ok_iff (v : JValue) (nm : String) :
    posAttributeCheck v nm = .ok () ↔ IsValidPos v := by
  cases v with
  | arr ps =>
      have hg : genericTypeCheck (JValue.arr ps) nm .list = .ok () := rfl
      simp [posAttributeCheck, hg, check_ok_bind, JValue.arrItems,
        posItemsLoop_ok_iff, IsValidPos]
  | null => simp [posAttributeCheck, genericTypeCheck, isInstanceOf,
      Except.bind, IsValidPos]
  | bool b => simp [posAttributeCheck, genericTypeCheck, isInstanceOf,
      Except.bind, IsValidPos]
  | int n => simp [posAttributeCheck, genericTypeCheck, isInstanceOf,
      Except.bind, IsValidPos]
  | float q => simp [posAttributeCheck, genericTypeCheck, isInstanceOf,
      Except.bind, IsValidPos]
  | str s => simp [posAttributeCheck, genericTypeCheck, isInstanceOf,
      Except.bind, IsValidPos]
  | obj kvs => simp [posAttributeCheck, genericTypeCheck, isInstanceOf,
      Except.bind, IsValidPos]

/-! ### Claim theorems -/

/-- C1: `hitsCheck` resolves the representation of a non-empty Hits list
by probing only its first element. If the first element is a list, the
check succeeds exactly when every element is a list of exactly 3 numeric
values; otherwise it succeeds exactly when every element is a typed Hit
object (mandatory numeric-list `pos`, optional `type`/`color`) whose
`pos` length is 3 when `type` is `Point` or absent and 6 when it is
`Line` or `Box`. -/
theorem hitsCheck_first_element_probe (nm : String) (first : JValue)
    (rest : List JValue) :
    (isInstanceOf first .list = true →
      (hitsCheck nm (.arr (first :: rest)) = .ok () ↔
        ∀ x ∈ first :: rest, RawTriplet x)) ∧
    (isInstanceOf first .list = false →
      (hitsCheck nm (.arr (first :: rest)) = .ok () ↔
        ∀ x ∈ first :: rest, ValidHitObj x)) := by
  constructor
  · intro h
    rw [hitsCheck_nonempty_arr, if_pos h, hitsPosLoop_ok_iff]
  · intro h
    rw [hitsCheck_nonempty_arr, if_neg (by simp [h]), hitsObjLoop_ok_iff]

/-- Witness for C1: a one-element Hits list holding a `Box` hit with six
coordinates passes `hitsCheck` via the typed-Hit branch. -/
theorem hitsCheck_first_element_probe_witness :
    hitsCheck "coll"
      (.arr [.obj [("type", .str "Box"),
        ("pos", .arr [.int 0, .int 0, .int 0, .int 1, .int 1, .int 1])]]) =
      .ok () := by
  refine ((hitsCheck_first_element_probe "coll"
      (.obj [("type", .str "Box"),
        ("pos", .arr [.int 0, .int 0, .int 0, .int 1, .int 1, .int 1])])
      []).2 rfl).mpr ?_
  intro x hx
  simp only [List.mem_singleton] at hx
  subst hx
  refine ⟨_, rfl, ?_, ?_, ⟨_, rfl, ?_, rfl⟩⟩
  · intro t ht
    injection ht with h
    subst h
    rfl
  · intro c hc
    exact Option.noConfusion hc
  · intro p hp
    fin_cases hp <;> rfl

/-- C9: on an empty Hits item list, `hitsCheck` succeeds without error:
no representation probe and no per-element check happens. -/
theorem hitsCheck_empty_ok (nm : String) :
    hitsCheck nm (.arr []) = .ok () := rfl

/-- C2: an event object lacking `event number` (resp. having it but
lacking `run number`) fails with the structural error naming exactly that
attribute in `top level event {name}`; when both keys are present the
presence check over the event schema succeeds whatever their values
(the per-key checker is `noCheck`). -/
theorem eventCheck_mandatory_keys (nm : String)
    (kvs : List (String × JValue)) :
    ((lookupJ kvs "event number").isNone = true →
      eventCheck nm (.obj kvs) =
        .error ⟨"Expected a 'event number' attribute in top level event " ++ nm⟩) ∧
    ((lookupJ kvs "event number").isSome = true →
      (lookupJ kvs "run number").isNone = true →
      eventCheck nm (.obj kvs) =
        .error ⟨"Expected a 'run number' attribute in top level event " ++ nm⟩) ∧
    ((lookupJ kvs "event number").isSome = true →
      (lookupJ kvs "run number").isSome = true →
      genericCheck (.obj kvs) eventEntries ("top level event " ++ nm) "Event" =
        .ok ()) := by
  refine ⟨?_, ?_, ?_⟩
  · intro h1
    rw [Option.isNone_iff_eq_none] at h1
    simp only [eventCheck, genericCheck, eventEntries,
      genericCheckLoop_cons_mand, h1, check_bind_error]
    simp only [← String.append_assoc]
    rfl
  · intro h1 h2
    obtain ⟨v1, hv1⟩ := Option.isSome_iff_exists.mp h1
    rw [Option.isNone_iff_eq_none] at h2
    simp only [eventCheck, genericCheck, eventEntries,
      genericCheckLoop_cons_mand, hv1, h2, noCheck, check_ok_bind,
      check_bind_error]
    simp only [← String.append_assoc]
    rfl
  · intro h1 h2
    obtain ⟨v1, hv1⟩ := Option.isSome_iff_exists.mp h1
    obtain ⟨v2, hv2⟩ := Option.isSome_iff_exists.mp h2
    simp [genericCheck, eventEntries, genericCheckLoop_cons_mand, hv1, hv2,
      noCheck, check_ok_bind, genericCheckLoop]

/-- Witness for C2: an event carrying only `event number` fails naming
`run number`. -/
theorem eventCheck_mandatory_keys_witness :
    eventCheck "evt" (.obj [("event number", .int 1)]) =
      .error ⟨"Expected a 'run number' attribute in top level event evt"⟩ :=
  (eventCheck_mandatory_keys "evt" [("event number", .int 1)]).2.1 rfl rfl

/-- C3: `check` either returns normally or produces exactly one
`PhoenixFormatError`; on a dictionary it is the left-to-right sequencing
of the per-event checks, and sequencing reports exactly the first failing
member's error, unmodified, regardless of what follows it. -/
theorem check_error_propagation :
    (∀ j : JValue, check j = .ok () ∨ ∃ e, check j = .error e) ∧
    (∀ kvs : List (String × JValue),
      check (.obj kvs) = seqChecks (kvs.map fun p => eventCheck p.1 p.2)) ∧
    (∀ (l1 : List Check) (e : PhoenixFormatError) (l2 : List Check),
      (∀ c ∈ l1, c = .ok ()) →
      seqChecks (l1 ++ .error e :: l2) = .error e) := by
  refine ⟨?_, ?_, seqChecks_first_error⟩
  · intro j
    rcases hc : check j with e | u
    · exact Or.inr ⟨e, rfl⟩
    · cases u
      exact Or.inl rfl
  · intro kvs
    simp [check, eventsLoop_eq_seq]

/-- Witness for C3: a success followed by an error yields that error. -/
theorem check_error_propagation_witness :
    seqChecks [Except.ok (), Except.error ⟨"boom"⟩] = .error ⟨"boom"⟩ :=
  check_error_propagation.2.2 [Except.ok ()] ⟨"boom"⟩ []
    (by intro c hc; simpa using hc)

/-- C4: `eventDataCheck` on a tag outside the eleven recognized names
fails with `Unknown data type found : '{tag}'` whatever the data; on each
recognized tag it runs that tag's checker over every sub-collection, in
order. -/
theorem eventDataCheck_known_tags :
    (∀ tag : String, tag ∉ KnownDataTypes.map (fun p => p.1) →
      ∀ (nm : String) (data : List (String × JValue)),
        eventDataCheck nm tag data =
          .error ⟨"Unknown data type found : '" ++ tag ++ "'"⟩) ∧
    (∀ (nm : String) (data : List (String × JValue)),
      eventDataCheck nm "Tracks" data = collectionsLoop tracksCheck nm data ∧
      eventDataCheck nm "Jets" data = collectionsLoop jetsCheck nm data ∧
      eventDataCheck nm "Hits" data = collectionsLoop hitsCheck nm data ∧
      eventDataCheck nm "CaloClusters" data =
        collectionsLoop clustersCheck nm data ∧
      eventDataCheck nm "CaloCells" data =
        collectionsLoop clustersCheck nm data ∧
      eventDataCheck nm "PlanarCaloCells" data =
        collectionsLoop planarCaloCheck nm data ∧
      eventDataCheck nm "Vertices" data =
        collectionsLoop verticesCheck nm data ∧
      eventDataCheck nm "MissingEnergy" data =
        collectionsLoop missingECheck nm data ∧
      eventDataCheck nm "Muons" data = collectionsLoop compoundCheck nm data ∧
      eventDataCheck nm "Photons" data = collectionsLoop compoundCheck nm data ∧
      eventDataCheck nm "Electrons" data =
        collectionsLoop compoundCheck nm data) ∧
    (∀ (ch : String → JValue → Check) (nm : String)
        (data : List (String × JValue)),
      collectionsLoop ch nm data =
        seqChecks (data.map fun p =>
          ch ("event '" ++ nm ++ "', collection '" ++ p.1 ++ "'") p.2)) := by
  refine ⟨?_, ?_, collectionsLoop_eq_seq⟩
  · intro tag htag nm data
    have hfind : KnownDataTypes.find? (fun p => p.1 == tag) = none := by
      rw [List.find?_eq_none]
      intro x hx hbeq
      exact htag (List.mem_map.mpr ⟨x, hx, beq_iff_eq.mp hbeq⟩)
    simp [eventDataCheck, hfind]
  · intro nm data
    exact ⟨rfl, rfl, rfl, rfl, rfl, rfl, rfl, rfl, rfl, rfl, rfl⟩

/-- Witness for C4: the tag `Bogus` is rejected by name. -/
theorem eventDataCheck_known_tags_witness :
    eventDataCheck "e" "Bogus" [] =
      .error ⟨"Unknown data type found : 'Bogus'"⟩ :=
  eventDataCheck_known_tags.1 "Bogus" (by decide) "e" []

/-- C5: the outcome of `genericCheck` depends only on the lookups of the
schema's keys: two objects agreeing on every schema key are checked
identically, and an entry under a key absent from the schema never
changes the outcome (so it can never cause a failure). -/
theorem genericCheck_schema_whitelist :
    (∀ (d : Schema) (nm ot : String) (kvs kvs' : List (String × JValue)),
      (∀ key ∈ d.map (fun r => r.1), lookupJ kvs key = lookupJ kvs' key) →
      genericCheck (.obj kvs) d nm ot = genericCheck (.obj kvs') d nm ot) ∧
    (∀ (d : Schema) (nm ot k : String) (v : JValue)
        (kvs : List (String × JValue)),
      k ∉ d.map (fun r => r.1) →
      genericCheck (.obj ((k, v) :: kvs)) d nm ot =
        genericCheck (.obj kvs) d nm ot) := by
  constructor
  · intro d nm ot kvs kvs' h
    simpa [genericCheck] using genericCheckLoop_congr d kvs kvs' nm h
  · intro d nm ot k v kvs hk
    have h : ∀ key ∈ d.map (fun r => r.1),
        lookupJ ((k, v) :: kvs) key = lookupJ kvs key := by
      intro key hkey
      exact lookupJ_cons_ne k key v kvs (fun he => hk (he ▸ hkey))
    simpa [genericCheck] using
      genericCheckLoop_congr d ((k, v) :: kvs) kvs nm h

/-- Witness for C5: an entry under `extra` is invisible to the event
schema. -/
theorem genericCheck_schema_whitelist_witness :
    genericCheck (.obj [("extra", .null)]) eventEntries "n" "t" =
      genericCheck (.obj []) eventEntries "n" "t" :=
  genericCheck_schema_whitelist.2 eventEntries "n" "t" "extra" .null []
    (by decide)

/-- C7: `eventCheck` on an event object is exactly the event-schema check
followed by dispatching every dict-valued entry, in order, to
`eventDataCheck` with the entry's key as the data-type tag; and appending
an entry whose value is not a dict to a passing event cannot make it
fail. -/
theorem eventCheck_dict_dispatch (nm : String)
    (kvs : List (String × JValue)) (k : String) (v : JValue) :
    (eventCheck nm (.obj kvs) =
      (genericCheck (.obj kvs) eventEntries ("top level event " ++ nm)
          "Event").bind fun _ =>
        seqChecks (((kvs.filter fun p => isInstanceOf p.2 .dict)).map fun p =>
          eventDataCheck nm p.1 p.2.objEntries)) ∧
    (isInstanceOf v .dict = false →
      eventCheck nm (.obj kvs) = .ok () →
      eventCheck nm (.obj (kvs ++ [(k, v)])) = .ok ()) := by
  constructor
  · simp [eventCheck, JValue.objEntries, eventDataLoop_eq_seq]
  · intro hv hok
    rw [eventCheck, JValue.objEntries] at hok
    rw [check_bind_ok_iff] at hok
    obtain ⟨hgen, hloop⟩ := hok
    rw [genericCheck] at hgen
    obtain ⟨h1, h2⟩ := eventEntries_ok_isSome kvs ("top level event " ++ nm) hgen
    have hcongr : genericCheckLoop (kvs ++ [(k, v)])
        ("top level event " ++ nm) eventEntries =
        genericCheckLoop kvs ("top level event " ++ nm) eventEntries := by
      refine genericCheckLoop_congr _ _ _ _ ?_
      intro key hkey
      simp only [eventEntries, List.map_cons, List.map_nil, List.mem_cons,
        List.not_mem_nil, or_false] at hkey
      rcases hkey with rfl | rfl
      · exact lookupJ_append_left kvs [(k, v)] _ h1
      · exact lookupJ_append_left kvs [(k, v)] _ h2
    rw [eventCheck, JValue.objEntries, genericCheck, hcongr, hgen,
      check_ok_bind, eventDataLoop_append, hloop, check_ok_bind,
      eventDataLoop_single_nondict nm k v hv]

/-- Witness for C7: appending a string-valued entry to a passing event
keeps it passing. -/
theorem eventCheck_dict_dispatch_witness :
    eventCheck "e"
      (.obj ([("event number", .int 1), ("run number", .int 2)] ++
        [("x", .str "y")])) = .ok () :=
  (eventCheck_dict_dispatch "e"
      [("event number", .int 1), ("run number", .int 2)] "x" (.str "y")).2
    rfl rfl

/-- C8: `check` is deterministic: on any JSON value two invocations agree,
both succeeding or both failing with the identical error message. -/
theorem check_deterministic (j : JValue) :
    (check j = .ok () ∧ check j = .ok ()) ∨
      ∃ m : String, check j = .error ⟨m⟩ ∧ check j = .error ⟨m⟩ := by
  rcases hc : check j with e | u
  · obtain ⟨m⟩ := e
    exact Or.inr ⟨m, rfl, rfl⟩
  · cases u
    exact Or.inl ⟨rfl, rfl⟩

/-- C10: the numeric check accepts Python booleans (`bool` subclasses
`int`), so lists of booleans pass `floatListCheck` and boolean values
pass schema fields checked with `floatCheck`, such as a Jet's `eta`/`phi`
or a Track's `dparams` entries. -/
theorem floatCheck_accepts_bool (b : Bool) (nm : String) :
    floatCheck (.bool b) nm = .ok () ∧
    floatListCheck (.arr [.bool b]) nm = .ok () ∧
    jetsCheck nm (.arr [.obj [("eta", .bool b), ("phi", .bool b)]]) = .ok () ∧
    tracksCheck nm (.arr [.obj [("pos", .arr []),
      ("dparams", .arr [.bool b, .bool b, .bool b, .bool b, .bool b])]]) =
      .ok () := by
  exact ⟨rfl, rfl, rfl, rfl⟩

/-- C6 counterexample: a Tracks item with no `pos` attribute makes
validation fail, but the error message names the missing attribute — it
is not of the triplet-length-mismatch form (those messages start with
`Expected 3 entries`). -/
theorem tracksCheck_missing_pos_message :
    tracksCheck "c" (.arr [.obj []]) =
      .error ⟨"Expected a 'pos' attribute in c, track 1"⟩ ∧
    List.isPrefixOf ("Expected 3 entries".data)
      ("Expected a 'pos' attribute in c, track 1".data) = false :=
  ⟨rfl, rfl⟩

/-- C6 amended: a Tracks item missing `pos` fails naming the missing
`pos` attribute; an item whose `pos` is not a list of 3-element numeric
lists fails (`posAttributeCheck` succeeds exactly on such lists); and
when an element of `pos` is a list of length other than 3, the failure
cites the triplet-length mismatch, expected 3 versus the length found. -/
theorem tracksCheck_pos_validation (nm : String)
    (kvs : List (String × JValue)) (item : JValue) (rest : List JValue)
    (v : JValue) (l : List JValue) :
    (lookupJ kvs "pos" = none →
      genericCheck (.obj kvs) trackEntries nm "Track" =
        .error ⟨"Expected a 'pos' attribute in " ++ nm⟩) ∧
    (lookupJ kvs "pos" = some v → ¬ IsValidPos v →
      genericCheck (.obj kvs) trackEntries nm "Track" ≠ .ok ()) ∧
    (posAttributeCheck v nm = .ok () ↔ IsValidPos v) ∧
    ((l.length : Int) ≠ 3 →
      floatListCheck (.arr l) nm 3 =
        .error ⟨"Expected " ++ toString (3 : Int) ++ " entries in " ++ nm
          ++ ", got " ++ toString l.length⟩) ∧
    (tracksCheck nm (.arr (item :: rest)) =
      (genericCheck item trackEntries
          (nm ++ ", track " ++ toString (1 : Nat)) "Track").bind fun _ =>
        tracksLoop nm rest 2) := by
  refine ⟨?_, ?_, posAttributeCheck_ok_iff v nm, ?_, rfl⟩
  · intro hpos
    simp only [genericCheck, trackEntries, genericCheckLoop_cons_mand, hpos]
    rfl
  · intro hpos hnv
    simp only [genericCheck, trackEntries, genericCheckLoop_cons_mand, hpos]
    rcases hpa : posAttributeCheck v (nm ++ ", attribute '" ++ "pos" ++ "'")
      with e | u
    · simp [hpa, check_bind_error]
    · cases u
      exact absurd ((posAttributeCheck_ok_iff v _).mp hpa) hnv
  · intro hlen
    have hcond : (3 : Int) ≥ 0 ∧ ((JValue.arr l).arrItems.length : Int) ≠ 3 := by
      simp [JValue.arrItems]
      omega
    simp [floatListCheck, genericTypeCheck, isInstanceOf, check_ok_bind,
      JValue.arrItems, hcond]
    intro h
    exact absurd h hlen

/-- Witness for C6 amended: the empty Track object lacks `pos` and fails
naming it. -/
theorem tracksCheck_pos_validation_witness :
    genericCheck (.obj []) trackEntries "t" "Track" =
      .error ⟨"Expected a 'pos' attribute in t"⟩ :=
  (tracksCheck_pos_validation "t" [] .null [] .null []).1 rfl

end Phoenix
